import Mathlib

/-
Verification of the tokenizer and structural decoding engine of a
libtcod-style config-file deserializer.

The lexer (src/lexer.rs) is embedded as a total function `scan` from the
remaining source text (a `List Char`) to a classified token together with its
matched slice and the remaining input.  Trivia (whitespace and comments) is
consumed by the single-pass state machine `skipTriviaM`; its `block` mode is
the embedding of the nested-comment loop of `ignore_comments`, its `line`
mode the embedding of the `//[^\n]*` rule, and its `top` mode the implicit
whitespace skipping of the token stream.  `skipComment` is a direct
transliteration of the `ignore_comments` loop alone, used to state comment
well-formedness; the lemmas `skipComment_closes` and `skipComment_unclosed`
connect the two.

The decoder (src/de/mod.rs together with struct_internal_access.rs,
struct_sequence_access.rs and primitive_sequence_access.rs) is embedded over
an explicit cursor state `LexState`.  Decode entry points return a `DOut`
outcome paired with the cursor state at the point of return.  Rust panics
(`unwrap` on a failed parse, `unimplemented!`) are modelled by the
distinguished outcome `DOut.panic`.  Source byte ranges carried inside error
payloads are positional metadata and are not modelled; the offending slice,
its token kind and the expectation string are.  The serde-derive glue that
drives `MapAccess`/`SeqAccess` (an external collaborator per the spec) is
modelled by explicit driver loops (`widgetFields`, `recordAFields`, the two
sequence loops) whose fuel bounds the number of loop iterations; fuel is
always instantiated above the iteration count reachable on the inputs under
consideration.
-/

namespace TcodConfig

/-- Characters treated as inter-token trivia (logos skips whitespace between
tokens implicitly). -/
def isWsChar (c : Char) : Bool :=
  c = ' ' ∨ c = '\t' ∨ c = '\n' ∨ c = '\r'

/-- ASCII hexadecimal digit, as in the regexes of src/lexer.rs. -/
def isHexDigitChar (c : Char) : Bool :=
  c.isDigit ∨ ('a' ≤ c ∧ c ≤ 'f') ∨ ('A' ≤ c ∧ c ≤ 'F')

/-- ASCII octal digit (`[0-7]`). -/
def isOctalChar (c : Char) : Bool :=
  '0' ≤ c ∧ c ≤ '7'

/-- Continuation character of an identifier (`[a-zA-Z0-9_]`). -/
def isIdentRest (c : Char) : Bool :=
  c.isAlpha ∨ c.isDigit ∨ c = '_'

/-- Whether a character list starts with a hexadecimal digit. -/
def headIsHex : List Char → Bool
  | c :: _ => isHexDigitChar c
  | [] => false

/-- The token kinds of `enum Token` in src/lexer.rs. -/
inductive Token where
  | EndOfProgram
  | Text
  | Char
  | Float
  | Hex
  | Integer
  | Identifier
  | Color
  | BraceOpen
  | BraceClose
  | Assign
  | Comma
  | BracketOpen
  | BracketClose
  | Unexpected
  | UnclosedMultilineComment
deriving DecidableEq, Repr

/-- Direct transliteration of the nested block-comment loop of
`ignore_comments` in src/lexer.rs: entered just after a `/*` has been
consumed, with `lvl` the current nesting depth.  `some rest` means the
comment closed (depth returned to zero), leaving `rest`; `none` means end of
input was reached first. -/
def skipComment (lvl : Nat) : List Char → Option (List Char)
  | [] => none
  | '*' :: '/' :: rest => if lvl = 1 then some rest else skipComment (lvl - 1) rest
  | '/' :: '*' :: rest => skipComment (lvl + 1) rest
  | _ :: rest => skipComment lvl rest

/-- Mode of the trivia-skipping state machine: outside any comment, inside a
`//` line comment, or inside a `/*` block comment at the given depth (the
`start` component remembers where the outermost `/*` began, for error
reporting). -/
inductive TriviaMode where
  | top
  | line
  | block (depth : Nat) (start : List Char)

/-- Result of trivia skipping: either the input position of the next lexeme,
or the position of a `/*` that is still open at end of input. -/
inductive TriviaResult where
  | lexeme (rest : List Char)
  | unclosed (commentStart : List Char)
deriving DecidableEq, Repr

/-- Single-pass embedding of the lexer's trivia handling: implicit
whitespace skipping, the `//[^\n]*` rule, and the nested-comment loop of
`ignore_comments` (whose `level` counter is the `depth` of `block` mode).
After a comment closes, scanning continues in `top` mode: comments are
transparent, exactly as `lex.advance()` makes them in the source. -/
def skipTriviaM : TriviaMode → List Char → TriviaResult
  | .top, [] => .lexeme []
  | .top, c :: cs =>
    if isWsChar c then skipTriviaM .top cs
    else match c, cs with
      | '/', '/' :: rest => skipTriviaM .line rest
      | '/', '*' :: rest => skipTriviaM (.block 1 ('/' :: '*' :: rest)) rest
      | _, _ => .lexeme (c :: cs)
  | .line, [] => .lexeme []
  | .line, '\n' :: cs => skipTriviaM .top cs
  | .line, _ :: cs => skipTriviaM .line cs
  | .block _ st, [] => .unclosed st
  | .block d st, '*' :: '/' :: rest =>
    if d = 1 then skipTriviaM .top rest else skipTriviaM (.block (d - 1) st) rest
  | .block d st, '/' :: '*' :: rest => skipTriviaM (.block (d + 1) st) rest
  | .block d st, _ :: rest => skipTriviaM (.block d st) rest

/-- The `"[^"]*"` rule, entered after the opening quote: the slice includes
both quotes. -/
def scanText (cs : List Char) : Token × List Char × List Char :=
  let content := cs.takeWhile (fun c => c ≠ '"')
  match cs.dropWhile (fun c => c ≠ '"') with
  | '"' :: rest => (Token.Text, '"' :: (content ++ ['"']), rest)
  | _ => (Token.Unexpected, ['"'], cs)

/-- The `\xHH..` alternative of the char-literal rule, entered after `'\x`. -/
def scanCharHex (cs r : List Char) : Token × List Char × List Char :=
  let h := r.takeWhile isHexDigitChar
  match r.dropWhile isHexDigitChar with
  | '\'' :: r2 =>
    if h.isEmpty then (Token.Unexpected, ['\''], cs)
    else (Token.Char, '\'' :: '\\' :: 'x' :: (h ++ ['\'']), r2)
  | _ => (Token.Unexpected, ['\''], cs)

/-- The remaining escaped alternatives of the char-literal rule, entered
after `'\`: octal digits, a named escape, or a lone backslash matched by the
`.` alternative. -/
def scanCharOther (cs r : List Char) : Token × List Char × List Char :=
  let o := r.takeWhile isOctalChar
  if o.isEmpty then
    match r with
    | '\'' :: '\'' :: r3 => (Token.Char, ['\'', '\\', '\'', '\''], r3)
    | '\'' :: r2 => (Token.Char, ['\'', '\\', '\''], r2)
    | e :: '\'' :: r2 =>
      if e = 'n' ∨ e = 't' ∨ e = 'r' ∨ e = '\\' ∨ e = '"' then
        (Token.Char, ['\'', '\\', e, '\''], r2)
      else (Token.Unexpected, ['\''], cs)
    | _ => (Token.Unexpected, ['\''], cs)
  else
    match r.dropWhile isOctalChar with
    | '\'' :: r2 => (Token.Char, '\'' :: '\\' :: (o ++ ['\'']), r2)
    | _ => (Token.Unexpected, ['\''], cs)

/-- The char-literal rule of src/lexer.rs, entered after the opening `'`. -/
def scanChar (cs : List Char) : Token × List Char × List Char :=
  match cs with
  | '\\' :: 'x' :: r => scanCharHex cs r
  | '\\' :: r => scanCharOther cs r
  | c :: '\'' :: r2 =>
    if c = '\n' then (Token.Unexpected, ['\''], cs)
    else (Token.Char, ['\'', c, '\''], r2)
  | _ => (Token.Unexpected, ['\''], cs)

/-- The optional `(E|e)(-|+)?[0-9]+` suffix of the float rule; returns the
matched exponent (possibly empty) and the remaining input. -/
def scanExponent (r : List Char) : List Char × List Char :=
  match r with
  | e :: rest =>
    if e = 'e' ∨ e = 'E' then
      let s : List Char × List Char :=
        match rest with
        | '-' :: rr => (['-'], rr)
        | '+' :: rr => (['+'], rr)
        | rr => ([], rr)
      let d := s.2.takeWhile Char.isDigit
      if d.isEmpty then ([], r)
      else (e :: (s.1 ++ d), s.2.dropWhile Char.isDigit)
    else ([], r)
  | [] => ([], r)

/-- Decimal classification: `Float` requires a mandatory dot with digits on
at least one side (optional exponent); otherwise `Integer`, which per
`-?[0-9]+` admits a `-` sign but not a `+`. -/
def scanDecimal (sign body cs : List Char) : Token × List Char × List Char :=
  let d1 := body.takeWhile Char.isDigit
  let r1 := body.dropWhile Char.isDigit
  match r1 with
  | '.' :: r2 =>
    let d2 := r2.takeWhile Char.isDigit
    if d1.isEmpty ∧ d2.isEmpty then (Token.Unexpected, cs.take 1, cs.drop 1)
    else
      let ex := scanExponent (r2.dropWhile Char.isDigit)
      (Token.Float, sign ++ d1 ++ '.' :: (d2 ++ ex.1), ex.2)
  | _ =>
    if d1.isEmpty then (Token.Unexpected, cs.take 1, cs.drop 1)
    else if sign = ['+'] then (Token.Unexpected, cs.take 1, cs.drop 1)
    else (Token.Integer, sign ++ d1, r1)

/-- Numeric classification with longest match among the `Float`, `Hex`
(`-?0(x|X)[0-9a-fA-F]+`) and `Integer` rules. -/
def scanNumber (cs : List Char) : Token × List Char × List Char :=
  let sign : List Char :=
    match cs with
    | '-' :: _ => ['-']
    | '+' :: _ => ['+']
    | _ => []
  let body := cs.drop sign.length
  match body with
  | '0' :: x :: r =>
    if (x = 'x' ∨ x = 'X') ∧ sign ≠ ['+'] ∧ headIsHex r then
      (Token.Hex, sign ++ '0' :: x :: r.takeWhile isHexDigitChar, r.dropWhile isHexDigitChar)
    else scanDecimal sign body cs
  | _ => scanDecimal sign body cs

/-- The `#` + exactly six hex digits rule, entered after the `#`. -/
def scanColor (cs : List Char) : Token × List Char × List Char :=
  let h := cs.take 6
  if h.length = 6 ∧ h.all isHexDigitChar then (Token.Color, '#' :: h, cs.drop 6)
  else (Token.Unexpected, ['#'], cs)

/-- Classification of the lexeme starting at the head of the input (trivia
already skipped).  A lone `/` reaching this point was not followed by `/` or
`*` and is an error token, like any other unmatched character. -/
def classify : List Char → Token × List Char × List Char
  | [] => (Token.EndOfProgram, [], [])
  | c :: cs =>
    if c = '"' then scanText cs
    else if c = '\'' then scanChar cs
    else if c.isDigit ∨ c = '-' ∨ c = '+' ∨ c = '.' then scanNumber (c :: cs)
    else if c.isAlpha then
      (Token.Identifier, c :: cs.takeWhile isIdentRest, cs.dropWhile isIdentRest)
    else if c = '#' then scanColor cs
    else if c = '{' then (Token.BraceOpen, [c], cs)
    else if c = '}' then (Token.BraceClose, [c], cs)
    else if c = '=' then (Token.Assign, [c], cs)
    else if c = ',' then (Token.Comma, [c], cs)
    else if c = '[' then (Token.BracketOpen, [c], cs)
    else if c = ']' then (Token.BracketClose, [c], cs)
    else (Token.Unexpected, [c], cs)

/-- Produce the next token from the remaining input: skip trivia, then
classify.  An unclosed block comment yields `UnclosedMultilineComment` whose
slice spans from the opening `/*` to end of input. -/
def scan (cs : List Char) : Token × List Char × List Char :=
  match skipTriviaM .top cs with
  | .lexeme rest => classify rest
  | .unclosed st => (Token.UnclosedMultilineComment, st, [])

/-- The observable state of `Lexer<Token, &str>`: the current token, its
matched slice, and the input remaining after it. -/
structure LexState where
  token : Token
  slice : List Char
  rest : List Char
deriving DecidableEq, Repr

/-- Lexer state obtained by scanning the given remaining input. -/
def scanState (cs : List Char) : LexState :=
  let t := scan cs
  ⟨t.1, t.2.1, t.2.2⟩

/-- `Token::lexer(source)`: the lexer with the first token already
classified. -/
def mkLexer (cs : List Char) : LexState := scanState cs

/-- `lexer.advance()`: consume the current token and classify the next.
`EndOfProgram` is sticky because scanning an empty rest yields it again. -/
def LexState.advance (s : LexState) : LexState := scanState s.rest

/-- `enum InvalidCharError` of src/de/mod.rs.  The `ParseInt` payload (the
underlying `std::num::ParseIntError`) is not modelled. -/
inductive InvalidCharError where
  | ParseInt
  | InvalidEscapeSequence (value : List Char)
  | InvalidCharValue (value : List Char)
deriving DecidableEq, Repr

/-- `enum Error` of src/de/mod.rs.  `UnexpectedToken` carries the offending
slice, its token kind (the source formats the kind into a string) and the
expectation text; source ranges are not modelled. -/
inductive Error where
  | Serde (msg : List Char)
  | UnexpectedToken (value : List Char) (tokenType : Token) (expected : List Char)
  | UnexpectedStruct (name : List Char) (expected : List Char)
  | MissingInstanceName
  | InvalidChar (source : InvalidCharError)
  | MultiLineStringOnBorrowedStr (value : List Char)
deriving DecidableEq, Repr

/-- Outcome of a decode call: a value, a structured error, or abnormal
termination of the process (a Rust panic from `unwrap`/`unimplemented!`). -/
inductive DOut (α : Type) where
  | ok (value : α)
  | err (e : Error)
  | panic
deriving DecidableEq, Repr

/-- Wrap a successful element decode for `SeqAccess` (`.map(Some)`). -/
def DOut.mapSome {V : Type} : DOut V → DOut (Option V)
  | DOut.ok v => DOut.ok (some v)
  | DOut.err e => DOut.err e
  | DOut.panic => DOut.panic

/-- Decimal digits to a natural number. -/
def digitsToNat : List Char → Nat → Nat
  | [], acc => acc
  | c :: t, acc => digitsToNat t (acc * 10 + (c.toNat - '0'.toNat))

/-- Syntax of Rust's `str::parse` for signed integer types: an optional
sign followed by at least one decimal digit. -/
def parseSignedInt : List Char → Option Int
  | [] => none
  | '-' :: t => if t ≠ [] ∧ t.all Char.isDigit then some (-(digitsToNat t 0 : Int)) else none
  | '+' :: t => if t ≠ [] ∧ t.all Char.isDigit then some ((digitsToNat t 0 : Int)) else none
  | l => if l.all Char.isDigit then some ((digitsToNat l 0 : Int)) else none

/-- Rust's `str::parse` into a bounded integer type with range `lo..=hi`:
out-of-range literals fail to parse. -/
def parseIntRange (lo hi : Int) (cs : List Char) : Option Int :=
  match parseSignedInt cs with
  | some v => if lo ≤ v ∧ v ≤ hi then some v else none
  | none => none

/-- The `visit_number!` macro of src/de/mod.rs for integer widths: requires
the current token to be `Integer`, then runs `slice().parse().unwrap()` —
on a parse failure (literal out of range for the target width) the `unwrap`
panics. -/
def visit_number (lo hi : Int) (s : LexState) : DOut Int × LexState :=
  if s.token = Token.Integer then
    match parseIntRange lo hi s.slice with
    | some v => (DOut.ok v, s.advance)
    | none => (DOut.panic, s)
  else (DOut.err (Error.UnexpectedToken s.slice s.token ("<number>".data)), s)

/-- `deserialize_i8`: `visit_number!(lexer, Integer, i8)`. -/
def deserialize_i8 (s : LexState) : DOut Int × LexState :=
  visit_number (-128) 127 s

/-- `deserialize_i64`: `visit_number!(lexer, Integer, i64)`. -/
def deserialize_i64 (s : LexState) : DOut Int × LexState :=
  visit_number (-9223372036854775808) 9223372036854775807 s

/-- `&slice[1..][..len-2]`: strip the surrounding quotes of a `Text` (or
instance-name) slice. -/
def stripQuotes (l : List Char) : List Char :=
  (l.drop 1).dropLast

/-- `deserialize_str` of src/de/mod.rs: exactly one `Text` token, failing
with `MultiLineStringOnBorrowedStr` when a second consecutive `Text` token
follows. -/
def deserialize_str (s : LexState) : DOut (List Char) × LexState :=
  if s.token = Token.Text then
    let result := stripQuotes s.slice
    let s1 := s.advance
    if s1.token = Token.Text then
      (DOut.err (Error.MultiLineStringOnBorrowedStr s1.slice), s1)
    else (DOut.ok result, s1)
  else (DOut.err (Error.UnexpectedToken s.slice s.token ("\"<string>\"".data)), s)

/-- The `while self.lexer.token == Token::Text` concatenation loop of
`deserialize_string`; the fuel always exceeds the possible number of
iterations on the inputs considered. -/
def stringAcc : Nat → List Char → LexState → DOut (List Char) × LexState
  | 0, _, s => (DOut.panic, s)
  | f + 1, acc, s =>
    if s.token = Token.Text then stringAcc f (acc ++ stripQuotes s.slice) s.advance
    else (DOut.ok acc, s)

/-- `deserialize_string` of src/de/mod.rs: concatenates the stripped
contents of all consecutive `Text` tokens. -/
def deserialize_string (s : LexState) : DOut (List Char) × LexState :=
  if s.token ≠ Token.Text then
    (DOut.err (Error.UnexpectedToken s.slice s.token ("\"<string>\"".data)), s)
  else stringAcc (s.rest.length + 2) [] s

/-- The state of `StructInternalAccess` beyond the shared cursor: the
pending synthesized instance-name entry, and the parked lexer snapshot. -/
structure StructInternalAccess where
  instance_name : Option (List Char)
  lexer : Option LexState
deriving DecidableEq, Repr

/-- The token kinds after which an identifier is accepted as a field name in
`next_key_seed` of src/de/struct_internal_access.rs. -/
def keyFollow (t : Token) : Bool :=
  t = Token.Assign ∨ t = Token.Text ∨ t = Token.BraceOpen
    ∨ t = Token.Identifier ∨ t = Token.BraceClose

/-- `StructInternalAccess::next_key_seed`: emit the synthesized
`instance_name` key first; end the record on `BraceClose`; otherwise demand
an identifier, snapshot the cursor, advance, and accept or reject the
candidate by the one-token lookahead `keyFollow`.  On rejection the snapshot
is dropped (`self.lexer = None`) and `Ok(None)` is returned with the cursor
left after the identifier. -/
def next_key_seed (a : StructInternalAccess) (s : LexState) :
    DOut (Option (List Char)) × StructInternalAccess × LexState :=
  if a.instance_name.isSome then (DOut.ok (some ("instance_name".data)), a, s)
  else if s.token = Token.BraceClose then (DOut.ok none, a, s.advance)
  else if s.token ≠ Token.Identifier then
    (DOut.err (Error.UnexpectedToken s.slice s.token ("<field>".data)), a, s)
  else
    let field := s.slice
    let s1 := s.advance
    if keyFollow s1.token then
      (DOut.ok (some field), ⟨a.instance_name, some s⟩, s1)
    else (DOut.ok none, ⟨a.instance_name, none⟩, s1)

/-- `StructInternalAccess::next_value_seed`, generic in the seed: `fromName`
models `seed.deserialize(BorrowedStrDeserializer)` for the synthesized
instance-name entry and `dec` models `seed.deserialize(&mut *self.de)`.  On
the bare nested-record forms the cursor is restored from the snapshot
(`self.lexer.take().unwrap()` — a panic if no snapshot is pending). -/
def next_value_seed {V : Type} (fromName : List Char → DOut V)
    (dec : LexState → DOut V × LexState) (a : StructInternalAccess) (s : LexState) :
    DOut V × StructInternalAccess × LexState :=
  match a.instance_name with
  | some n => (fromName n, ⟨none, a.lexer⟩, s)
  | none =>
    match s.token with
    | Token.Assign =>
      let s1 := s.advance
      if s1.token = Token.Text ∨ s1.token = Token.Char ∨ s1.token = Token.Integer
          ∨ s1.token = Token.Hex ∨ s1.token = Token.Float ∨ s1.token = Token.BracketOpen then
        let r := dec s1
        (r.1, ⟨none, none⟩, r.2)
      else (DOut.err (Error.UnexpectedToken s1.slice s1.token ("<value>".data)), ⟨none, none⟩, s1)
    | Token.Text | Token.BraceOpen | Token.Identifier | Token.BraceClose =>
      match a.lexer with
      | some sv =>
        let r := dec sv
        (r.1, ⟨none, none⟩, r.2)
      | none => (DOut.panic, a, s)
    | _ => (DOut.err (Error.UnexpectedToken s.slice s.token ("= or \"<name>\"".data)), a, s)

/-- `deserialize_struct` of src/de/mod.rs, generic in the visitor: the
pre-flight `instance_name` field-set check, the type-name match, the
optional quoted instance name, the mandatory `{`, and then the map visit
starting from the synthesized instance-name entry. -/
def deserialize_struct {V : Type} (type_name : List Char) (fields : List (List Char))
    (visitMap : StructInternalAccess → LexState → DOut V × LexState) (s : LexState) :
    DOut V × LexState :=
  if ¬ fields.contains ("instance_name".data) then (DOut.err Error.MissingInstanceName, s)
  else if s.token ≠ Token.Identifier then
    (DOut.err (Error.UnexpectedToken s.slice s.token ("<typename>".data)), s)
  else if s.slice ≠ type_name then
    (DOut.err (Error.UnexpectedStruct s.slice type_name), s)
  else
    let s1 := s.advance
    match s1.token with
    | Token.Text =>
      let nm := stripQuotes s1.slice
      let s2 := s1.advance
      if s2.token ≠ Token.BraceOpen then
        (DOut.err (Error.UnexpectedToken s2.slice s2.token ("\x7b".data)), s2)
      else visitMap ⟨some nm, none⟩ s2.advance
    | Token.BraceOpen => visitMap ⟨some [], none⟩ s1.advance
    | _ =>
      (DOut.err (Error.UnexpectedToken s1.slice s1.token ("\"<instance_name>\" or \x7b".data)), s1)

/-- A concrete record target: type name `widget`, declared fields
`instance_name` (the reserved name field) and `weight`. -/
structure Widget where
  instance_name : List Char
  weight : Int
deriving DecidableEq, Repr

/-- The derived `visit_map` driver for `Widget`: loop over keyed entries,
dispatching the value seed per field.  A missing or duplicate field is a
serde-level error; an unknown field would be routed to
`deserialize_ignored_any`, which is `unimplemented!` in the source and hence
a panic. -/
def widgetFields : Nat → StructInternalAccess → LexState →
    Option (List Char) → Option Int → DOut Widget × LexState
  | 0, _, s, _, _ => (DOut.panic, s)
  | f + 1, a, s, accName, accW =>
    let k := next_key_seed a s
    match k.1 with
    | DOut.err e => (DOut.err e, k.2.2)
    | DOut.panic => (DOut.panic, k.2.2)
    | DOut.ok none =>
      match accName, accW with
      | some n, some w => (DOut.ok ⟨n, w⟩, k.2.2)
      | none, _ => (DOut.err (Error.Serde ("missing field instance_name".data)), k.2.2)
      | _, none => (DOut.err (Error.Serde ("missing field weight".data)), k.2.2)
    | DOut.ok (some key) =>
      if key = "instance_name".data then
        if accName.isSome then
          (DOut.err (Error.Serde ("duplicate field instance_name".data)), k.2.2)
        else
          let v := next_value_seed (fun n => DOut.ok n) deserialize_string k.2.1 k.2.2
          match v.1 with
          | DOut.ok n => widgetFields f v.2.1 v.2.2 (some n) accW
          | DOut.err e => (DOut.err e, v.2.2)
          | DOut.panic => (DOut.panic, v.2.2)
      else if key = "weight".data then
        if accW.isSome then
          (DOut.err (Error.Serde ("duplicate field weight".data)), k.2.2)
        else
          let v := next_value_seed (fun _ => DOut.err (Error.Serde ("invalid type".data)))
            deserialize_i64 k.2.1 k.2.2
          match v.1 with
          | DOut.ok w => widgetFields f v.2.1 v.2.2 accName (some w)
          | DOut.err e => (DOut.err e, v.2.2)
          | DOut.panic => (DOut.panic, v.2.2)
      else (DOut.panic, k.2.2)

/-- Decode one `Widget` record, requesting type tag `type_name` and declared
field set `instance_name, weight`. -/
def decodeWidget (type_name : List Char) (s : LexState) : DOut Widget × LexState :=
  deserialize_struct type_name ["instance_name".data, "weight".data]
    (fun a s1 => widgetFields (s1.rest.length + 2) a s1 none none) s

/-- The derived `visit_map` driver for a record type whose only declared
field is the reserved `instance_name`; the decoded value is that name. -/
def recordAFields : Nat → StructInternalAccess → LexState →
    Option (List Char) → DOut (List Char) × LexState
  | 0, _, s, _ => (DOut.panic, s)
  | f + 1, a, s, accName =>
    let k := next_key_seed a s
    match k.1 with
    | DOut.err e => (DOut.err e, k.2.2)
    | DOut.panic => (DOut.panic, k.2.2)
    | DOut.ok none =>
      match accName with
      | some n => (DOut.ok n, k.2.2)
      | none => (DOut.err (Error.Serde ("missing field instance_name".data)), k.2.2)
    | DOut.ok (some key) =>
      if key = "instance_name".data then
        if accName.isSome then
          (DOut.err (Error.Serde ("duplicate field instance_name".data)), k.2.2)
        else
          let v := next_value_seed (fun n => DOut.ok n) deserialize_string k.2.1 k.2.2
          match v.1 with
          | DOut.ok n => recordAFields f v.2.1 v.2.2 (some n)
          | DOut.err e => (DOut.err e, v.2.2)
          | DOut.panic => (DOut.panic, v.2.2)
      else (DOut.panic, k.2.2)

/-- Decode one record of type tag `a` with only the reserved name field. -/
def decodeRecordA (s : LexState) : DOut (List Char) × LexState :=
  deserialize_struct ("a".data) ["instance_name".data]
    (fun a s1 => recordAFields (s1.rest.length + 2) a s1 none) s

/-- The state of `StructSeqAccess`: the committed type name of the grouped
sibling sequence, once the first element has fixed it. -/
structure StructSeqAccess where
  type_name : Option (List Char)
deriving DecidableEq, Repr

/-- `StructSeqAccess::next_element_seed`: on an identifier, commit the first
type name or compare against the committed one — a different identifier
silently ends the sequence without consuming anything; `BraceClose` also
ends it silently; any other token is fatal. -/
def seq_next_element_seed {V : Type} (dec : LexState → DOut V × LexState)
    (a : StructSeqAccess) (s : LexState) : DOut (Option V) × StructSeqAccess × LexState :=
  if s.token = Token.Identifier then
    match a.type_name with
    | some t =>
      if t ≠ s.slice then (DOut.ok none, a, s)
      else
        let r := dec s
        (DOut.mapSome r.1, a, r.2)
    | none =>
      let r := dec s
      (DOut.mapSome r.1, ⟨some s.slice⟩, r.2)
  else if s.token = Token.BraceClose then (DOut.ok none, a, s)
  else
    (DOut.err (Error.UnexpectedToken s.slice s.token ("<type> <typename> or \x7d".data)), a, s)

/-- `PrimitiveSeqAccess::next_element_seed`: decode one scalar-shaped
element, then require `Comma` (consumed) or `BracketClose` (left for the
caller); an immediate `BracketClose` ends the sequence. -/
def prim_next_element_seed {V : Type} (dec : LexState → DOut V × LexState) (s : LexState) :
    DOut (Option V) × LexState :=
  match s.token with
  | Token.Text | Token.Integer | Token.Float | Token.Char | Token.BracketOpen =>
    let r := dec s
    match r.1 with
    | DOut.ok v =>
      if r.2.token ≠ Token.Comma ∧ r.2.token ≠ Token.BracketClose then
        (DOut.err (Error.UnexpectedToken r.2.slice r.2.token ("<value> or ]".data)), r.2)
      else if r.2.token = Token.Comma then (DOut.ok (some v), r.2.advance)
      else (DOut.ok (some v), r.2)
    | DOut.err e => (DOut.err e, r.2)
    | DOut.panic => (DOut.panic, r.2)
  | Token.BracketClose => (DOut.ok none, s)
  | _ => (DOut.err (Error.UnexpectedToken s.slice s.token ("<value> or ]".data)), s)

/-- The derived `visit_seq` driver over `PrimitiveSeqAccess`. -/
def primSeqLoop {V : Type} (dec : LexState → DOut V × LexState) :
    Nat → List V → LexState → DOut (List V) × LexState
  | 0, _, s => (DOut.panic, s)
  | f + 1, acc, s =>
    let r := prim_next_element_seed dec s
    match r.1 with
    | DOut.ok (some v) => primSeqLoop dec f (acc ++ [v]) r.2
    | DOut.ok none => (DOut.ok acc, r.2)
    | DOut.err e => (DOut.err e, r.2)
    | DOut.panic => (DOut.panic, r.2)

/-- The derived `visit_seq` driver over `StructSeqAccess`. -/
def structSeqLoop {V : Type} (dec : LexState → DOut V × LexState) :
    Nat → StructSeqAccess → List V → LexState → DOut (List V) × LexState
  | 0, _, _, s => (DOut.panic, s)
  | f + 1, a, acc, s =>
    let r := seq_next_element_seed dec a s
    match r.1 with
    | DOut.ok (some v) => structSeqLoop dec f r.2.1 (acc ++ [v]) r.2.2
    | DOut.ok none => (DOut.ok acc, r.2.2)
    | DOut.err e => (DOut.err e, r.2.2)
    | DOut.panic => (DOut.panic, r.2.2)

/-- `deserialize_seq` of src/de/mod.rs: an identifier starts a grouped
sibling sequence of record blocks; `[` starts a bracketed primitive
sequence whose closing `]` is consumed after the element loop; anything
else is fatal. -/
def deserialize_seq {V : Type} (dec : LexState → DOut V × LexState) (s : LexState) :
    DOut (List V) × LexState :=
  if s.token = Token.Identifier then
    structSeqLoop dec (s.rest.length + 2) ⟨none⟩ [] s
  else if s.token = Token.BracketOpen then
    let s1 := s.advance
    let r := primSeqLoop dec (s1.rest.length + 2) [] s1
    match r.1 with
    | DOut.ok xs =>
      if r.2.token ≠ Token.BracketClose then
        (DOut.err (Error.UnexpectedToken r.2.slice r.2.token ("]".data)), r.2)
      else (DOut.ok xs, r.2.advance)
    | DOut.err e => (DOut.err e, r.2)
    | DOut.panic => (DOut.panic, r.2)
  else (DOut.err (Error.UnexpectedToken s.slice s.token ("[ or identifier".data)), s)

/-- A comment as insertable source text: a line comment `//…` (newline-free
body) followed by its terminating newline, or a block comment `/*…*/` whose
body closes exactly at its end, at nesting depth zero. -/
inductive ValidComment : List Char → Prop where
  | line (body : List Char) (h : '\n' ∉ body) : ValidComment ('/' :: '/' :: (body ++ ['\n']))
  | block (body : List Char) (h : skipComment 1 body = some []) : ValidComment ('/' :: '*' :: body)

theorem skipTriviaM_block_step {d : Nat} {st : List Char} {a b : Char} {l : List Char}
    (h1 : a = '*' → b ≠ '/') (h2 : a = '/' → b ≠ '*') :
    skipTriviaM (.block d st) (a :: b :: l) = skipTriviaM (.block d st) (b :: l) := by
  by_cases ha : a = '*'
  · have hb := h1 ha
    subst ha
    simp [skipTriviaM, hb]
  · by_cases ha2 : a = '/'
    · have hb := h2 ha2
      subst ha2
      simp [skipTriviaM, hb]
    · simp [skipTriviaM, ha, ha2]

theorem skipTriviaM_line_step {c : Char} {l : List Char} (hc : c ≠ '\n') :
    skipTriviaM .line (c :: l) = skipTriviaM .line l := by
  simp [skipTriviaM, hc]

theorem skipComment_step {lvl : Nat} {a b : Char} {l : List Char}
    (h1 : a = '*' → b ≠ '/') (h2 : a = '/' → b ≠ '*') :
    skipComment lvl (a :: b :: l) = skipComment lvl (b :: l) := by
  by_cases ha : a = '*'
  · have hb := h1 ha
    subst ha
    simp [skipComment, hb]
  · by_cases ha2 : a = '/'
    · have hb := h2 ha2
      subst ha2
      simp [skipComment, hb]
    · simp [skipComment, ha, ha2]

theorem skipComment_closes {lvl : Nat} {body r : List Char}
    (h : skipComment lvl body = some r) :
    ∀ (st tail : List Char),
      skipTriviaM (.block lvl st) (body ++ tail) = skipTriviaM .top (r ++ tail) := by
  induction lvl, body using skipComment.induct generalizing r with
  | case1 lvl => simp [skipComment] at h
  | case2 rest =>
    intro st tail
    simp [skipComment] at h
    subst h
    simp [skipTriviaM]
  | case3 lvl rest hne ih =>
    intro st tail
    rw [skipComment, if_neg hne] at h
    simp only [List.cons_append]
    rw [skipTriviaM]
    simp only [if_neg hne]
    exact ih h st tail
  | case4 lvl rest ih =>
    intro st tail
    rw [skipComment] at h
    simp only [List.cons_append]
    rw [skipTriviaM]
    exact ih h st tail
  | case5 lvl head rest hx hy ih =>
    intro st tail
    cases rest with
    | nil => simp [skipComment] at h
    | cons r0 rest2 =>
      have h1 : head = '*' → r0 ≠ '/' := fun ha hb => hx rest2 ha (by rw [hb])
      have h2 : head = '/' → r0 ≠ '*' := fun ha hb => hy rest2 ha (by rw [hb])
      rw [skipComment_step h1 h2] at h
      simp only [List.cons_append]
      rw [skipTriviaM_block_step h1 h2]
      exact ih h st tail

theorem skipComment_unclosed {lvl : Nat} {body : List Char}
    (h : skipComment lvl body = none) :
    ∀ st : List Char, skipTriviaM (.block lvl st) body = .unclosed st := by
  induction lvl, body using skipComment.induct <;>
    intro st <;> simp_all [skipComment, skipTriviaM]

theorem skipTriviaM_line_comment {body : List Char} (h : '\n' ∉ body) :
    ∀ cs : List Char, skipTriviaM .line (body ++ '\n' :: cs) = skipTriviaM .top cs := by
  induction body with
  | nil => intro cs; simp [skipTriviaM]
  | cons c t ih =>
    intro cs
    simp only [List.mem_cons, not_or] at h
    rw [List.cons_append, skipTriviaM_line_step (Ne.symm h.1)]
    exact ih h.2 cs

theorem validComment_skipTrivia {C : List Char} (h : ValidComment C) (cs : List Char) :
    skipTriviaM .top (C ++ cs) = skipTriviaM .top cs := by
  cases h with
  | line body hb =>
    have ha : ('/' :: '/' :: (body ++ ['\n'])) ++ cs = '/' :: '/' :: (body ++ '\n' :: cs) := by
      simp
    rw [ha]
    rw [show skipTriviaM .top ('/' :: '/' :: (body ++ '\n' :: cs))
          = skipTriviaM .line (body ++ '\n' :: cs) from by simp [skipTriviaM, isWsChar]]
    exact skipTriviaM_line_comment hb cs
  | block body hb =>
    have ha : ('/' :: '*' :: body) ++ cs = '/' :: '*' :: (body ++ cs) := by simp
    rw [ha]
    rw [show skipTriviaM .top ('/' :: '*' :: (body ++ cs))
          = skipTriviaM (.block 1 ('/' :: '*' :: (body ++ cs))) (body ++ cs) from by
        simp [skipTriviaM, isWsChar]]
    have hc := skipComment_closes hb ('/' :: '*' :: (body ++ cs)) cs
    simpa using hc

/-- C1: the input `widget "lamp" { weight = 3 }` decoded as a record of type
name `widget` whose declared field set is the reserved name field
(`instance_name` in the source) together with `weight` succeeds, yielding a
record whose name field is `lamp` and whose weight is 3; decoding the same
input against type name `gadget` fails with `UnexpectedStruct`. -/
theorem c1_record_identity :
    (decodeWidget ("widget".data) (mkLexer ("widget \"lamp\" \x7b weight = 3 \x7d".data))).1
      = DOut.ok ⟨"lamp".data, 3⟩
    ∧ (decodeWidget ("gadget".data) (mkLexer ("widget \"lamp\" \x7b weight = 3 \x7d".data))).1
      = DOut.err (Error.UnexpectedStruct ("widget".data) ("gadget".data)) := by
  decide

/-- C2 (amended): during field scanning, when an identifier candidate is
followed by a token outside the accept set, the candidate is rejected, the
snapshot is discarded without restoring the cursor — the identifier stays
consumed and the cursor rests on the offending token — and the record decode
ends, returning `Ok(None)` to the caller. -/
theorem c2_reject_consumes_identifier :
    ∀ (a : StructInternalAccess) (s : LexState),
      a.instance_name = none → s.token = Token.Identifier →
      keyFollow s.advance.token = false →
      next_key_seed a s = (DOut.ok none, ⟨none, none⟩, s.advance) := by
  intro a s h1 h2 h3
  simp [next_key_seed, h1, h2, h3]

/-- C2 counterexample: on `q 5` the identifier `q` is rejected (the next
token is `Integer`), yet the resulting cursor is the `Integer` token state,
not the park point at the identifier, so the rewind the claim describes does
not happen and the identifier has been consumed. -/
theorem c2_counterexample :
    next_key_seed ⟨none, none⟩ (mkLexer ("q 5".data))
      = (DOut.ok none, ⟨none, none⟩, ⟨Token.Integer, ['5'], []⟩)
    ∧ mkLexer ("q 5".data) = ⟨Token.Identifier, ['q'], [' ', '5']⟩ := by
  decide

/-- C2 witness: the amended rejection behaviour at a concrete input. -/
theorem c2_witness :
    next_key_seed ⟨none, none⟩ (mkLexer ("key 123".data))
      = (DOut.ok none, ⟨none, none⟩, (mkLexer ("key 123".data)).advance) :=
  c2_reject_consumes_identifier ⟨none, none⟩ (mkLexer ("key 123".data)) rfl (by decide) (by decide)

/-- C3: whenever the current token is `Integer` but its slice does not parse
into the 8-bit signed range, `deserialize_i8` panics (the `unwrap` in
`visit_number!`) instead of returning a structured parse error. -/
theorem c3_overflow_panics :
    ∀ s : LexState, s.token = Token.Integer →
      parseIntRange (-128) 127 s.slice = none →
      deserialize_i8 s = (DOut.panic, s) := by
  intro s h1 h2
  simp [deserialize_i8, visit_number, h1, h2]

/-- C3 witness: decoding the literal `300` as an 8-bit signed integer
panics. -/
theorem c3_witness :
    deserialize_i8 (mkLexer ("300".data)) = (DOut.panic, mkLexer ("300".data)) :=
  c3_overflow_panics (mkLexer ("300".data)) (by decide) (by decide)

/-- C4 counterexample: decoding the literal `-0x1F` as a signed integer does
not yield -31. -/
theorem c4_counterexample :
    (deserialize_i64 (mkLexer ("-0x1F".data))).1 ≠ DOut.ok (-31) := by
  decide

/-- C4 (amended): decoding `42` as a signed integer yields 42, but decoding
`-0x1F` fails with `UnexpectedToken`: integer decoding accepts only the
`Integer` token, while `-0x1F` lexes as `Hex`, which no numeric decode
accepts. -/
theorem c4_scalar_decodes :
    (deserialize_i64 (mkLexer ("42".data))).1 = DOut.ok 42
    ∧ (deserialize_i64 (mkLexer ("-0x1F".data))).1
        = DOut.err (Error.UnexpectedToken ("-0x1F".data) Token.Hex ("<number>".data)) := by
  decide

/-- C5: `a { } a { } b { }` decoded as a sequence of `a`-typed records
yields exactly two elements and leaves the cursor on the unconsumed `b`
identifier; `a { } b { } a { }` yields exactly one element and likewise
leaves the cursor on `b` — the differently-named identifier silently ends
the sequence without error and without consuming the token. -/
theorem c5_grouped_sibling_boundary :
    deserialize_seq decodeRecordA (mkLexer ("a \x7b \x7d a \x7b \x7d b \x7b \x7d".data))
      = (DOut.ok [[], []], ⟨Token.Identifier, ['b'], (" \x7b \x7d".data)⟩)
    ∧ deserialize_seq decodeRecordA (mkLexer ("a \x7b \x7d b \x7b \x7d a \x7b \x7d".data))
      = (DOut.ok [[]], ⟨Token.Identifier, ['b'], (" \x7b \x7d a \x7b \x7d".data)⟩) := by
  decide

/-- C6: `"ab" "cd"` decoded as an owning string yields `abcd` while the
borrowed decode fails with `MultiLineStringOnBorrowedStr`; in general, from
a `Text` token the borrowed decode fails exactly when a second consecutive
`Text` token follows, and succeeds with the quote-stripped slice
otherwise. -/
theorem c6_multiline_string :
    (deserialize_string (mkLexer ("\"ab\" \"cd\"".data))).1 = DOut.ok ("abcd".data)
    ∧ (deserialize_str (mkLexer ("\"ab\" \"cd\"".data))).1
        = DOut.err (Error.MultiLineStringOnBorrowedStr ("\"cd\"".data))
    ∧ ∀ s : LexState, s.token = Token.Text →
        (s.advance.token = Token.Text →
          deserialize_str s
            = (DOut.err (Error.MultiLineStringOnBorrowedStr s.advance.slice), s.advance))
        ∧ (s.advance.token ≠ Token.Text →
          deserialize_str s = (DOut.ok (stripQuotes s.slice), s.advance)) := by
  refine ⟨by decide, by decide, ?_⟩
  intro s h
  constructor
  · intro h2
    simp [deserialize_str, h, h2]
  · intro h2
    simp [deserialize_str, h, h2]

/-- C6 witness: a single-segment borrowed string decode succeeds. -/
theorem c6_witness :
    deserialize_str (mkLexer ("\"abc\"".data))
      = (DOut.ok ("abc".data), (mkLexer ("\"abc\"".data)).advance) :=
  (c6_multiline_string.2.2 (mkLexer ("\"abc\"".data)) (by decide)).2 (by decide)

/-- C7: for every input, type name and visitor, requesting a record decode
whose declared field set omits the reserved `instance_name` field fails with
`MissingInstanceName`, and the cursor state after the failed call is exactly
the state before it — no token is consumed. -/
theorem c7_missing_name_field :
    ∀ {V : Type} (type_name : List Char) (fields : List (List Char))
      (visitMap : StructInternalAccess → LexState → DOut V × LexState) (s : LexState),
      ¬ fields.contains ("instance_name".data) →
      deserialize_struct type_name fields visitMap s
        = (DOut.err Error.MissingInstanceName, s) := by
  intro V tn fields vm s h
  unfold deserialize_struct
  rw [if_pos h]

/-- C7 witness: the widget driver with declared fields lacking
`instance_name` fails pre-flight on a well-formed record input, leaving the
cursor untouched. -/
theorem c7_witness :
    deserialize_struct ("widget".data) ["weight".data]
      (fun a s1 => widgetFields (s1.rest.length + 2) a s1 none none)
      (mkLexer ("widget \"lamp\" \x7b weight = 3 \x7d".data))
      = (DOut.err Error.MissingInstanceName,
         mkLexer ("widget \"lamp\" \x7b weight = 3 \x7d".data)) :=
  c7_missing_name_field _ _ _ _ (by decide)

/-- C8: inserting a valid comment — a `//…` line comment with its newline,
or a balanced (possibly nested) `/*…*/` block comment — in front of any
remaining input changes neither the next scanned token nor the lexer state
built from that input.  Since the cursor state at any point between two
tokens is `mkLexer` of the remaining input and every decode is a function of
that state, the decoded result of a document is unchanged by such an
insertion at any token boundary. -/
theorem c8_comment_transparency :
    ∀ C : List Char, ValidComment C → ∀ cs : List Char,
      scan (C ++ cs) = scan cs ∧ mkLexer (C ++ cs) = mkLexer cs := by
  intro C h cs
  have hs : scan (C ++ cs) = scan cs := by
    unfold scan
    rw [validComment_skipTrivia h cs]
  exact ⟨hs, by simp [mkLexer, scanState, hs]⟩

/-- C8 witness: a nested block comment is transparent in front of concrete
input. -/
theorem c8_witness :
    scan (('/' :: '*' :: (" /* inner */ */".data)) ++ (" a 1".data)) = scan (" a 1".data)
    ∧ mkLexer (('/' :: '*' :: (" /* inner */ */".data)) ++ (" a 1".data))
        = mkLexer (" a 1".data) :=
  c8_comment_transparency ('/' :: '*' :: (" /* inner */ */".data))
    (ValidComment.block (" /* inner */ */".data) (by decide)) (" a 1".data)

/-- C9 (amended): for every input whose block comment is still open at end
of input, tokenization yields the `UnclosedMultilineComment` token — not a
silent empty token and not end-of-input — and a decode at that position
fails with an `UnexpectedToken` error reporting that token as found, since
the error enum has no dedicated unclosed-comment variant. -/
theorem c9_unclosed_comment :
    ∀ cs : List Char, skipComment 1 cs = none →
      scan ('/' :: '*' :: cs) = (Token.UnclosedMultilineComment, '/' :: '*' :: cs, [])
      ∧ deserialize_i64 (mkLexer ('/' :: '*' :: cs))
          = (DOut.err (Error.UnexpectedToken ('/' :: '*' :: cs)
                Token.UnclosedMultilineComment ("<number>".data)),
             mkLexer ('/' :: '*' :: cs)) := by
  intro cs h
  have hs : scan ('/' :: '*' :: cs)
      = (Token.UnclosedMultilineComment, '/' :: '*' :: cs, []) := by
    unfold scan
    rw [show skipTriviaM .top ('/' :: '*' :: cs)
          = skipTriviaM (.block 1 ('/' :: '*' :: cs)) cs from by simp [skipTriviaM, isWsChar]]
    rw [skipComment_unclosed h]
  have hm : mkLexer ('/' :: '*' :: cs)
      = ⟨Token.UnclosedMultilineComment, '/' :: '*' :: cs, []⟩ := by
    simp [mkLexer, scanState, hs]
  refine ⟨hs, ?_⟩
  rw [hm]
  simp [deserialize_i64, visit_number]

/-- C9 counterexample: decoding `/* never closed` fails, but with the
`UnexpectedToken` error kind (carrying the `UnclosedMultilineComment` token
as the offending token), not with a dedicated UnclosedComment error kind,
which does not exist in the source error enum. -/
theorem c9_counterexample :
    (deserialize_i64 (mkLexer ("/* never closed".data))).1
      = DOut.err (Error.UnexpectedToken ("/* never closed".data)
          Token.UnclosedMultilineComment ("<number>".data)) := by
  decide

/-- C9 witness: tokenizing `/* never closed` yields the
`UnclosedMultilineComment` token. -/
theorem c9_witness :
    scan ('/' :: '*' :: (" never closed".data))
      = (Token.UnclosedMultilineComment, '/' :: '*' :: (" never closed".data), []) :=
  (c9_unclosed_comment (" never closed".data) (by decide)).1

/-- C10: a trailing comma in a bracketed array is accepted: after the comma
following the last element is consumed, an immediately following `]` makes
the next element request end the sequence without error and without
consuming the bracket; concretely, `[1, 2,]` and `[1, 2]` decode to the same
two elements. -/
theorem c10_trailing_comma :
    (∀ s : LexState, s.token = Token.BracketClose →
        prim_next_element_seed deserialize_i64 s = (DOut.ok none, s))
    ∧ deserialize_seq deserialize_i64 (mkLexer ("[1, 2,]".data))
        = (DOut.ok [1, 2], ⟨Token.EndOfProgram, [], []⟩)
    ∧ deserialize_seq deserialize_i64 (mkLexer ("[1, 2]".data))
        = (DOut.ok [1, 2], ⟨Token.EndOfProgram, [], []⟩) := by
  refine ⟨?_, by decide, by decide⟩
  intro s h
  obtain ⟨t, sl, r⟩ := s
  cases h
  rfl

/-- C10 witness: at a `]` the element request ends the sequence without
error and without consuming the bracket. -/
theorem c10_witness :
    prim_next_element_seed deserialize_i64 (mkLexer ("]".data))
      = (DOut.ok none, mkLexer ("]".data)) :=
  c10_trailing_comma.1 (mkLexer ("]".data)) (by decide)


end TcodConfig
